import Mathlib

/-!
Verification of the Klaro documentation agent (src/main.py, src/tools.py)
against its natural-language specification.

Strings from the Python source are modelled as `List Char`.  Python's
`str.lower` is modelled on the ASCII range (the only range the routing
sentinels use).  Behaviour that is external to the program text
(the LLM call, the vector store, the filesystem, tool callables) is
modelled as explicit oracle parameters, so every definition below is
executable on concrete inputs.
-/

namespace Klaro

/- ### String helpers (models of the Python string operations used) -/

/-- ASCII model of Python `str.lower` applied to one character. -/
def pyLower (c : Char) : Char :=
  if 'A' ≤ c ∧ c ≤ 'Z' then Char.ofNat (c.toNat + 32) else c

/-- Model of Python `str.lower`. -/
def lowerChars (s : List Char) : List Char := s.map pyLower

/-- Model of Python's substring test `pat in s`. -/
def containsSub (pat : List Char) : List Char → Bool
  | [] => pat.isEmpty
  | c :: rest => pat.isPrefixOf (c :: rest) || containsSub pat rest

/-- Python whitespace characters stripped by `str.strip()` (ASCII range). -/
def isPySpace (c : Char) : Bool :=
  c = ' ' || c = '\t' || c = '\n' || c = '\r' || c = Char.ofNat 11 || c = Char.ofNat 12

/-- Model of Python `str.strip()`: drop leading and trailing whitespace. -/
def pyStrip (s : List Char) : List Char :=
  ((s.dropWhile isPySpace).reverse.dropWhile isPySpace).reverse

/- ### Routing model: src/main.py, `decide_next_step` (lines 310-430) -/

/-- One entry of `AIMessage.tool_calls` as routing sees it (src/main.py line 419). -/
structure ToolCall where
  id : List Char
  name : List Char
deriving Repr, DecidableEq

/-- The fields of the latest message that `decide_next_step` inspects:
`last_message.content` and `last_message.tool_calls`. -/
structure Message where
  content : List Char
  tool_calls : List ToolCall
deriving Repr, DecidableEq

/-- `AgentState` (src/main.py lines 149-196): message history plus `error_log`. -/
structure AgentState where
  messages : List Message
  error_log : List Char
deriving Repr, DecidableEq

/-- The three values `decide_next_step` can return: the node names
`"run_model"`, `"call_tool"`, and the LangGraph `END` constant. -/
inductive Route where
  | run_model
  | call_tool
  | END
deriving Repr, DecidableEq

/-- Routing result: the returned route, plus whether the heuristic-completion
warning (the `print` at src/main.py lines 412-413) was emitted on the way. -/
structure Decision where
  route : Route
  heuristic_warning : Bool
deriving Repr, DecidableEq

/-- Default of `RECURSION_LIMIT` (src/main.py line 116). -/
def RECURSION_LIMIT : Nat := 50

/-- `has_markdown_header` (src/main.py line 405): the content starts with `#`
or contains a newline-led `#`. -/
def has_markdown_header (content : List Char) : Bool :=
  ("#").toList.isPrefixOf content || containsSub ("\n#").toList content

/-- `has_setup_section` (src/main.py line 406), applied to the lowercased text. -/
def has_setup_section (content_lower : List Char) : Bool :=
  containsSub ("## setup").toList content_lower ||
  containsSub ("## installation").toList content_lower

/-- `is_substantial` (src/main.py line 407): more than 200 characters. -/
def is_substantial (content : List Char) : Bool :=
  decide (content.length > 200)

/-- The secondary completion condition of src/main.py line 409:
`has_markdown_header and (has_setup_section or is_substantial)`. -/
def heuristicDone (content : List Char) : Bool :=
  has_markdown_header content &&
    (has_setup_section (lowerChars content) || is_substantial content)

/-- Tool-call fallthrough of `decide_next_step` (src/main.py lines 416-430):
route to `call_tool` when `last_message.tool_calls` is non-empty, else keep
reasoning in `run_model`. -/
def toolOrContinue (last_message : Message) : Decision :=
  if last_message.tool_calls ≠ [] then ⟨Route.call_tool, false⟩
  else ⟨Route.run_model, false⟩

/-- Body of `decide_next_step` after the recursion-limit safety check
(src/main.py lines 381-430): error recovery, then the two completion checks
(both guarded by `if last_message.content:`), then tool-call routing. -/
def routeRules (last_message : Message) (error_log : List Char) : Decision :=
  if error_log ≠ [] then ⟨Route.run_model, false⟩
  else if last_message.content ≠ [] then
    if containsSub ("final answer").toList (lowerChars last_message.content) then
      ⟨Route.END, false⟩
    else if heuristicDone last_message.content then ⟨Route.END, true⟩
    else toolOrContinue last_message
  else toolOrContinue last_message

/-- `decide_next_step` (src/main.py lines 310-430), parameterised by the
recursion limit.  The function first reads `state["messages"][-1]` (an
`IndexError` on an empty history, modelled as `none`), then applies the
safety check `message_count >= RECURSION_LIMIT * 0.95` (for natural
`message_count` this is `20 * message_count ≥ 19 * limit`) with the hard
cutoff `message_count >= RECURSION_LIMIT` inside it, and finally the
routing rules. -/
def decide_next_step (limit : Nat) (state : AgentState) : Option Decision :=
  state.messages.getLast?.map fun last_message =>
    if 20 * state.messages.length ≥ 19 * limit then
      if state.messages.length ≥ limit then ⟨Route.END, false⟩
      else routeRules last_message state.error_log
    else routeRules last_message state.error_log

/- ### Final-answer extraction: src/main.py, `run_klaro_langgraph` (lines 749-761) -/

/-- The completion sentinel prefix `"Final Answer:"` (src/main.py line 758). -/
def sentinelChars : List Char := ("Final Answer:").toList

/-- Fuel-indexed model of Python `str.replace("Final Answer:", "")`: scan left
to right, removing each non-overlapping occurrence of the sentinel.  The fuel
only serves termination; `removeSentinel` supplies enough of it. -/
def removeSentinelAux : Nat → List Char → List Char
  | 0, s => s
  | _ + 1, [] => []
  | fuel + 1, c :: rest =>
    if sentinelChars.isPrefixOf (c :: rest) then
      removeSentinelAux fuel ((c :: rest).drop sentinelChars.length)
    else
      c :: removeSentinelAux fuel rest

/-- Model of `final_message.replace("Final Answer:", "")` (src/main.py line 759). -/
def removeSentinel (s : List Char) : List Char := removeSentinelAux s.length s

/-- The extraction step of the Session Driver (src/main.py lines 758-759):
if the final message starts with `"Final Answer:"`, replace every occurrence
of the sentinel by the empty string and strip surrounding whitespace. -/
def extractFinal (final_message : List Char) : List Char :=
  if sentinelChars.isPrefixOf final_message then
    pyStrip (removeSentinel final_message)
  else final_message

/- ### File reading: src/tools.py, `read_file` (lines 434-475) -/

/-- What the filesystem can answer for one path, partitioning the cases
`read_file` distinguishes: missing path, directory, readable file content,
or a read/decode failure raising an exception with message `err`. -/
inductive FsEntry where
  | absent
  | directory
  | file (content : List Char)
  | unreadable (err : List Char)
deriving Repr, DecidableEq

/-- The filesystem as an oracle from paths to entries. -/
def FileSystem := (List Char) → FsEntry

/-- Error string of src/tools.py line 464. -/
def fileNotFoundMsg (file_path : List Char) : List Char :=
  ("Error: File path not found or is not a file: \x27").toList ++
    file_path ++ ("\x27").toList

/-- Error string of src/tools.py line 467. -/
def isDirectoryMsg (file_path : List Char) : List Char :=
  ("Error: Path \x27").toList ++ file_path ++
    ("\x27 is a directory, not a file. Please use \x27list_files\x27.").toList

/-- Error string of src/tools.py line 475. -/
def readFailMsg (err : List Char) : List Char :=
  ("Error reading file: ").toList ++ err

/-- `read_file` (src/tools.py lines 434-475): not-found check, directory
check, then the guarded read returning the complete content; every failure
becomes an error string, never an exception. -/
def read_file (fs : FileSystem) (file_path : List Char) : List Char :=
  match fs file_path with
  | .absent => fileNotFoundMsg file_path
  | .directory => isDirectoryMsg file_path
  | .file content => content
  | .unreadable err => readFailMsg err

/- ### Tool Executor (spec-modelled) -/

/-- Modelled from the spec: outcome of invoking one tool callable under the
per-tool timeout — the implementation of the Tool Executor (LangGraph's
prebuilt `ToolNode`, registered at src/main.py line 451) is library code not
present in this repository. -/
inductive ToolOutcome where
  | ok (result : List Char)
  | raised (err : List Char)
  | timedOut
deriving Repr

/-- A `ToolRequest` of the spec data model: correlation id, tool name,
argument map. -/
structure ToolRequest where
  id : List Char
  name : List Char
  args : List ((List Char) × (List Char))
deriving Repr, DecidableEq

/-- A `ToolObservation` of the spec data model: the correlation id it
answers and the result string. -/
structure ToolObservation where
  correlation_id : List Char
  result : List Char
deriving Repr, DecidableEq

/-- The tool registry: a name-keyed map to tool callables; each callable is
an oracle producing a result, a raised exception, or a timeout. -/
def ToolRegistry := List ((List Char) × (List ((List Char) × (List Char)) → ToolOutcome))

/-- Modelled from the spec: the structured error string identifying an
unknown tool name (spec 4.2). -/
def unknownToolMsg (name : List Char) : List Char :=
  ("Error: unknown tool ").toList ++ name ++ (" is not in the registry.").toList

/-- Modelled from the spec: the error-text observation for a tool that
raised during execution (spec 4.2). -/
def toolFailureMsg (err : List Char) : List Char :=
  ("Error: tool execution failed: ").toList ++ err

/-- Modelled from the spec: the error-text observation for a tool that
exceeded the per-tool timeout (spec 4.2). -/
def toolTimeoutMsg : List Char :=
  ("Error: tool execution timed out.").toList

/-- Modelled from the spec: convert one tool-invocation outcome into the
observation answering correlation id `id` — raised exceptions and timeouts
are caught and converted to error text; nothing propagates. -/
def observeOutcome (id : List Char) : ToolOutcome → ToolObservation
  | .ok s => ⟨id, s⟩
  | .raised e => ⟨id, toolFailureMsg e⟩
  | .timedOut => ⟨id, toolTimeoutMsg⟩

/-- Modelled from the spec: answer one request — registry lookup, an unknown
name becomes an error observation, a found tool is invoked and its outcome
converted; nothing propagates. -/
def answerRequest (registry : ToolRegistry) (req : ToolRequest) : ToolObservation :=
  match registry.lookup req.name with
  | none => ⟨req.id, unknownToolMsg req.name⟩
  | some f => observeOutcome req.id (f req.args)

/-- Modelled from the spec: `execute(requests) -> [ToolObservation]`, one
observation per request, order-preserving (spec 4.2); the Tool Executor
implementation (`ToolNode`) is not part of this repository. -/
def execute (registry : ToolRegistry) (requests : List ToolRequest) : List ToolObservation :=
  requests.map (answerRequest registry)

/- ### Code analysis: src/tools.py, `analyze_code` (lines 513-660) -/

/-- Python statements as `analyze_code` distinguishes them after
`ast.parse`: (async) function definitions, class definitions, an expression
statement holding a string constant (the docstring convention checked by
`_extract_docstring`), any other simple statement, and any other compound
statement with nested statements.  `returns` holds the `ast.unparse`d and
stripped return annotation when one is present. -/
inductive PyStmt where
  | funcDef (isAsync : Bool) (name : List Char) (params : List (List Char))
      (returns : Option (List Char)) (lineno : Nat) (body : List PyStmt)
  | classDef (name : List Char) (lineno : Nat) (body : List PyStmt)
  | exprStr (s : List Char)
  | simpleStmt
  | compoundStmt (body : List PyStmt)
deriving Repr

mutual
/-- Node count of a statement subtree (termination measure for the walk). -/
def stmtSize : PyStmt → Nat
  | .funcDef _ _ _ _ _ body => 1 + stmtsSize body
  | .classDef _ _ body => 1 + stmtsSize body
  | .exprStr _ => 1
  | .simpleStmt => 1
  | .compoundStmt body => 1 + stmtsSize body
/-- Node count of a statement list. -/
def stmtsSize : List PyStmt → Nat
  | [] => 0
  | s :: rest => stmtSize s + stmtsSize rest
end

/-- The child statements a node contributes to the traversal queue. -/
def childrenOf : PyStmt → List PyStmt
  | .funcDef _ _ _ _ _ body => body
  | .classDef _ _ body => body
  | .exprStr _ => []
  | .simpleStmt => []
  | .compoundStmt body => body

/-- `ast.walk` (used at src/tools.py line 585): breadth-first traversal of
all nodes of the tree, here seeded with the module's top-level statements. -/
def walkBFS : List PyStmt → List PyStmt
  | [] => []
  | n :: rest => n :: walkBFS (rest ++ childrenOf n)
termination_by q => stmtsSize q
decreasing_by
  simp_wf
  have happ : ∀ (a b : List PyStmt), stmtsSize (a ++ b) = stmtsSize a + stmtsSize b := by
    intro a b
    induction a with
    | nil => simp [stmtsSize]
    | cons x xs ih => simp [stmtsSize, ih]; omega
  have hch : ∀ t : PyStmt, stmtsSize (childrenOf t) < stmtSize t := by
    intro t
    cases t <;> simp [stmtSize, childrenOf, stmtsSize]
  rw [happ]
  have h1 := hch s
  simp [stmtsSize]
  omega

/-- A method entry of a class component (src/tools.py lines 637-642):
name, parameters, return annotation, docstring — no line number. -/
structure MethodInfo where
  name : List Char
  parameters : List (List Char)
  returns : List Char
  docstring : List Char
deriving Repr, DecidableEq

/-- A component dictionary of the analysis output (src/tools.py lines
605-612 and 645-651). -/
inductive Component where
  | func (name : List Char) (parameters : List (List Char)) (returns : List Char)
      (docstring : List Char) (lineno : Nat)
  | cls (name : List Char) (docstring : List Char) (methods : List MethodInfo)
      (lineno : Nat)
deriving Repr, DecidableEq

/-- `_extract_docstring` (src/tools.py lines 479-510): the first statement
of the body must be an expression statement holding a string constant. -/
def extractDocstring : List PyStmt → Option (List Char)
  | .exprStr s :: _ => some s
  | _ => none

/-- `docstring if docstring else "None"` (src/tools.py lines 610 and 641):
a missing or empty docstring is rendered as the string `"None"`. -/
def renderDoc : Option (List Char) → List Char
  | some s => if s.isEmpty then ("None").toList else s
  | none => ("None").toList

/-- `ast.unparse(node.returns).strip() if node.returns else "None"`
(src/tools.py lines 599 and 632); the annotation arrives pre-rendered. -/
def renderReturns : Option (List Char) → List Char
  | some r => r
  | none => ("None").toList

/-- The method dictionary built for a `FunctionDef`/`AsyncFunctionDef`
found directly in a class body (src/tools.py lines 622-642). -/
def methodOf : PyStmt → Option MethodInfo
  | .funcDef _ name params rets _ body =>
      some ⟨name, params, renderReturns rets, renderDoc (extractDocstring body)⟩
  | _ => none

/-- The component appended for one walked node (src/tools.py lines 585-651):
every (async) function definition yields a `"function"` component, every
class definition yields a `"class"` component whose methods are the function
definitions directly in its body; other nodes yield nothing. -/
def toComponent : PyStmt → Option Component
  | .funcDef _ name params rets lineno body =>
      some (.func name params (renderReturns rets)
        (renderDoc (extractDocstring body)) lineno)
  | .classDef name lineno body =>
      some (.cls name (renderDoc (extractDocstring body))
        (body.filterMap methodOf) lineno)
  | _ => none

/-- The components list built by `analyze_code` (src/tools.py lines
585-651) from the parsed module body. -/
def analyze_code (tree : List PyStmt) : List Component :=
  (walkBFS tree).filterMap toComponent

/-- Whether a component has `"type": "function"`. -/
def isFuncComponent : Component → Bool
  | .func _ _ _ _ _ => true
  | .cls _ _ _ _ => false

/-- Whether a component has `"type": "class"`. -/
def isClassComponent : Component → Bool
  | .func _ _ _ _ _ => false
  | .cls _ _ _ _ => true

/-- The function count of the `analysis_summary` line (src/tools.py line
656): `len([c for c in components if c["type"] == "function"])`. -/
def functionCount (components : List Component) : Nat :=
  (components.filter isFuncComponent).length

/-- The class count of the `analysis_summary` line (src/tools.py line 656). -/
def classCount (components : List Component) : Nat :=
  (components.filter isClassComponent).length

/-- The `analysis_summary` string (src/tools.py line 656). -/
def analysisSummary (components : List Component) : List Char :=
  ("This Python file contains ").toList ++ (Nat.repr (classCount components)).toList ++
    (" classes and ").toList ++ (Nat.repr (functionCount components)).toList ++
    (" functions.").toList

/-- Whether a statement is an (async) function definition. -/
def isFuncStmt : PyStmt → Bool
  | .funcDef _ _ _ _ _ _ => true
  | _ => false

mutual
/-- Number of (async) function-definition nodes anywhere in a subtree. -/
def funcDefCount : PyStmt → Nat
  | .funcDef _ _ _ _ _ body => 1 + funcDefCountList body
  | .classDef _ _ body => funcDefCountList body
  | .exprStr _ => 0
  | .simpleStmt => 0
  | .compoundStmt body => funcDefCountList body
/-- Number of (async) function-definition nodes anywhere in a forest. -/
def funcDefCountList : List PyStmt → Nat
  | [] => 0
  | s :: rest => funcDefCount s + funcDefCountList rest
end

/- ### Knowledge base: src/tools.py, `init_knowledge_base` (lines 706-802)
and `retrieve_knowledge` (lines 805-890) -/

/-- A LangChain `Document`: text content and its source label. -/
structure Doc where
  page_content : List Char
  source : List Char
deriving Repr, DecidableEq

/-- Oracles for the external RAG machinery used inside the `try` block of
`init_knowledge_base`: the text splitter, the `OpenAIEmbeddings`
constructor, `Chroma.from_documents`, and `as_retriever`.  Store and
retriever values are opaque handles; `.error e` models a raised exception
with message `e`. -/
structure KBOps where
  splitDocuments : List Doc → Except (List Char) (List Doc)
  createEmbeddings : Except (List Char) Unit
  chromaFromDocuments : List Doc → Except (List Char) Nat
  asRetriever : Nat → Except (List Char) Nat

/-- Warning string of src/tools.py line 755. -/
def kbWarningMsg : List Char :=
  ("Warning: No documents provided for initialization.").toList

/-- Error string of src/tools.py line 802. -/
def kbErrorMsg (e : List Char) : List Char :=
  ("Error initializing knowledge base: ").toList ++ e

/-- Success string of src/tools.py line 799 (`VECTOR_DB_PATH` is
`"./klaro_db"`). -/
def kbSuccessMsg (n : Nat) : List Char :=
  ("Knowledge base (ChromaDB) successfully initialized at ./klaro_db. ").toList ++
    (Nat.repr n).toList ++ (" chunks indexed.").toList

/-- Final stage of `init_knowledge_base`: `as_retriever` succeeded and the
global retriever is reassigned (src/tools.py line 796), or the exception is
caught and the retriever left unchanged. -/
def initFromRetriever (retriever : Option Nat) (nTexts : Nat)
    (r : Except (List Char) Nat) : (List Char) × Option Nat :=
  match r with
  | .error e => (kbErrorMsg e, retriever)
  | .ok rr => (kbSuccessMsg nTexts, some rr)

/-- Stage of `init_knowledge_base` after the embeddings were constructed:
`Chroma.from_documents` (src/tools.py line 784) then `as_retriever`
(line 796); only the fully successful path reassigns the retriever. -/
def initFromStore (ops : KBOps) (retriever : Option Nat) (texts : List Doc)
    (st : Except (List Char) Nat) : (List Char) × Option Nat :=
  match st with
  | .error e => (kbErrorMsg e, retriever)
  | .ok store => initFromRetriever retriever texts.length (ops.asRetriever store)

/-- Stage of `init_knowledge_base` after the documents were chunked:
`OpenAIEmbeddings(...)` (src/tools.py line 776), then the store stage. -/
def initFromEmbeddings (ops : KBOps) (retriever : Option Nat) (texts : List Doc)
    (em : Except (List Char) Unit) : (List Char) × Option Nat :=
  match em with
  | .error e => (kbErrorMsg e, retriever)
  | .ok _ => initFromStore ops retriever texts (ops.chromaFromDocuments texts)

/-- `init_knowledge_base` (src/tools.py lines 706-802).  Takes the current
value of the global `KLARO_RETRIEVER` and returns the status string together
with its new value: the empty-input check, then the chunk/embed/store
pipeline inside `try` staged as the functions above, with the global
reassigned only after every step succeeded; any exception is caught and
returned as an error string. -/
def init_knowledge_base (ops : KBOps) (retriever : Option Nat) (documents : List Doc) :
    (List Char) × Option Nat :=
  if documents.isEmpty then (kbWarningMsg, retriever)
  else
    match ops.splitDocuments documents with
    | .error e => (kbErrorMsg e, retriever)
    | .ok texts => initFromEmbeddings ops retriever texts ops.createEmbeddings

/-- Error string of src/tools.py line 866. -/
def kbNotInitMsg : List Char :=
  ("Error: Knowledge base not initialized. Please ensure init_knowledge_base was called.").toList

/-- Error string of src/tools.py line 890. -/
def retrieveErrorMsg (e : List Char) : List Char :=
  ("Error retrieving knowledge: ").toList ++ e

/-- The `Source i: ...` formatting of src/tools.py lines 882-886. -/
def formatSources (docs : List Doc) : List Char :=
  List.intercalate ("\n---\n").toList
    (docs.enum.map fun p =>
      ("Source ").toList ++ (Nat.repr (p.1 + 1)).toList ++ (": ").toList ++ p.2.page_content)

/-- `retrieve_knowledge` (src/tools.py lines 805-890): not-initialized
check on the global retriever, then the guarded retrieval call. -/
def retrieve_knowledge (retriever : Option Nat)
    (invoke : Nat → List Char → Except (List Char) (List Doc))
    (query : List Char) : List Char :=
  match retriever with
  | none => kbNotInitMsg
  | some r =>
    match invoke r query with
    | .error e => retrieveErrorMsg e
    | .ok docs => ("Retrieved Information:\n").toList ++ formatSources docs

/- ### Concrete inputs used by witnesses and counterexamples -/

/-- A message with no content and no tool calls. -/
def blankMessage : Message := ⟨[], []⟩

/-- A state at the recursion limit with a pending error. -/
def c1LimitState : AgentState := ⟨List.replicate 50 blankMessage, ("boom").toList⟩

/-- A latest message carrying both the completion sentinel and a tool call. -/
def c1WitnessMsg : Message :=
  ⟨("Final Answer: # README").toList, [⟨("call_1").toList, ("list_files").toList⟩]⟩

/-- A state with a pending error and a sentinel-plus-tool-call message. -/
def c1WitnessState : AgentState :=
  ⟨[c1WitnessMsg], ("Tool failed: file not found").toList⟩

/-- Fifty sentinel-free reasoning messages: the model never finishes. -/
def c2WitnessState : AgentState :=
  ⟨List.replicate 50 ⟨("Thought: still thinking").toList, []⟩, []⟩

/-- A latest message containing the sentinel phrase. -/
def c4WitnessMsg : Message := ⟨("Final Answer: # README\nDone.").toList, []⟩

/-- An error-free state whose latest message contains the sentinel. -/
def c4WitnessState : AgentState := ⟨[c4WitnessMsg], []⟩

/-- A short markdown message with a Setup heading (12 characters long). -/
def c5Msg : Message := ⟨("# T\n## Setup").toList, []⟩

/-- An error-free state with a short Setup-headed markdown message. -/
def c5State : AgentState := ⟨[c5Msg], []⟩

/-- A markdown message with an Installation heading and no sentinel. -/
def c5WitnessMsg : Message := ⟨("# Proj\n## Installation\nRun pip.").toList, []⟩

/-- An error-free state whose latest message triggers the heuristic. -/
def c5WitnessState : AgentState := ⟨[c5WitnessMsg], []⟩

/-- A latest message carrying a tool call and no content. -/
def c6LastMsg : Message := ⟨[], [⟨("call_7").toList, ("read_file").toList⟩]⟩

/-- An error-free state of fifty messages whose last requests a tool. -/
def c6State : AgentState := ⟨List.replicate 49 blankMessage ++ [c6LastMsg], []⟩

/-- A reasoning message that also requests a tool call. -/
def c6WitnessMsg : Message :=
  ⟨("Thought: read the main module next.").toList,
   [⟨("call_9").toList, ("read_file").toList⟩]⟩

/-- An error-free one-message state requesting a tool call. -/
def c6WitnessState : AgentState := ⟨[c6WitnessMsg], []⟩

/-- A registry with one tool whose invocation always raises. -/
def c7Registry : ToolRegistry :=
  [(("read_file").toList, fun _ => ToolOutcome.raised ("boom").toList)]

/-- Two requests: one for the raising tool, one for an unknown name. -/
def c7Requests : List ToolRequest :=
  [⟨("call_1").toList, ("read_file").toList, []⟩,
   ⟨("call_2").toList, ("does_not_exist").toList, []⟩]

/-- A filesystem with a single 1000-character file. -/
def c8Fs : FileSystem := fun p =>
  if p = ("big.py").toList then FsEntry.file (List.replicate 1000 'a')
  else FsEntry.absent

/-- A method `add` with a docstring, inside a class body. -/
def c9Method : PyStmt :=
  PyStmt.funcDef false ("add").toList
    [("self").toList, ("a").toList, ("b").toList] (some ("int").toList) 3
    [PyStmt.exprStr ("Adds two numbers.").toList, PyStmt.simpleStmt]

/-- The body of the example class: docstring then one method. -/
def c9ClassBody : List PyStmt :=
  [PyStmt.exprStr ("Does math.").toList, c9Method]

/-- A module defining one class with one method and nothing else. -/
def c9Tree : List PyStmt :=
  [PyStmt.classDef ("Calculator").toList 1 c9ClassBody]

/- ### Helper lemmas -/

theorem isPrefixOf_append_self (p t : List Char) : p.isPrefixOf (p ++ t) = true := by
  induction p with
  | nil => simp only [List.isPrefixOf]
  | cons a as ih =>
    simp only [List.cons_append, List.isPrefixOf, beq_self_eq_true, Bool.true_and]
    exact ih

theorem isPrefixOf_map_of_isPrefixOf (f : Char → Char) :
    ∀ {p s : List Char}, p.isPrefixOf s = true → (p.map f).isPrefixOf (s.map f) = true := by
  intro p
  induction p with
  | nil => intro s _; simp only [List.map_nil, List.isPrefixOf]
  | cons a as ih =>
    intro s h
    cases s with
    | nil =>
      simp only [List.isPrefixOf] at h
      exact absurd h (by decide)
    | cons b bs =>
      simp only [List.isPrefixOf, Bool.and_eq_true, beq_iff_eq] at h
      simp only [List.map_cons, List.isPrefixOf, Bool.and_eq_true, beq_iff_eq]
      exact ⟨by rw [h.1], ih h.2⟩

theorem containsSub_map_of_containsSub (f : Char → Char) {p : List Char} :
    ∀ {s : List Char}, containsSub p s = true → containsSub (p.map f) (s.map f) = true := by
  intro s
  induction s with
  | nil =>
    intro h
    simp only [containsSub] at h
    have hp : p = [] := by
      cases p with
      | nil => rfl
      | cons a as => simp [List.isEmpty] at h
    subst hp
    rfl
  | cons c rest ih =>
    intro h
    simp only [containsSub, Bool.or_eq_true] at h
    simp only [List.map_cons, containsSub, Bool.or_eq_true]
    rcases h with h | h
    · exact Or.inl (isPrefixOf_map_of_isPrefixOf f h)
    · exact Or.inr (ih h)

theorem ne_nil_of_containsSub {p s : List Char} (hp : p ≠ []) (h : containsSub p s = true) :
    s ≠ [] := by
  intro hs
  subst hs
  simp only [containsSub] at h
  cases p with
  | nil => exact hp rfl
  | cons a as => simp [List.isEmpty] at h

theorem decide_next_step_below_limit (limit : Nat) (state : AgentState) (last : Message)
    (hlast : state.messages.getLast? = some last)
    (hcount : state.messages.length < limit) :
    decide_next_step limit state = some (routeRules last state.error_log) := by
  unfold decide_next_step
  rw [hlast]
  simp only [Option.map_some']
  congr 1
  by_cases hob : 20 * state.messages.length ≥ 19 * limit
  · rw [if_pos hob, if_neg (by omega)]
  · rw [if_neg hob]

/- ### Claim C1 -/

/-- Claim C1, counterexample: a state whose `error_log` is the non-empty
string `"boom"` but whose message count has reached the recursion limit is
routed to `END`, not to `"run_model"` — the safety cutoff at src/main.py
line 377 precedes the error check, so the claim as stated is false. -/
theorem c1_counterexample :
    c1LimitState.error_log ≠ [] ∧
      (decide_next_step 50 c1LimitState).map Decision.route ≠ some Route.run_model := by
  constructor
  · decide
  · decide

/-- Claim C1, amended: for every agent state whose message count is below
the recursion limit, a non-empty `error_log` routes to `"run_model"`
regardless of the content of the latest message — even when it contains the
completion sentinel or carries tool calls. -/
theorem c1_error_priority (limit : Nat) (state : AgentState) (last : Message)
    (hlast : state.messages.getLast? = some last)
    (hcount : state.messages.length < limit)
    (herr : state.error_log ≠ []) :
    (decide_next_step limit state).map Decision.route = some Route.run_model := by
  rw [decide_next_step_below_limit limit state last hlast hcount]
  simp [routeRules, herr]

/-- Claim C1, witness: a one-message state whose latest message contains
the sentinel and carries a tool call, with a pending error, routes to
`"run_model"`. -/
theorem c1_witness :
    (decide_next_step 50 c1WitnessState).map Decision.route = some Route.run_model :=
  c1_error_priority 50 c1WitnessState c1WitnessMsg rfl (by decide) (by decide)

/- ### Claim C2 -/

/-- Claim C2: for every positive recursion limit and every state whose
message count has reached it, `decide_next_step` returns `END`, so a model
that never emits the completion sentinel cannot drive the loop past the
bound (src/main.py lines 375-379). -/
theorem c2_recursion_limit (limit : Nat) (state : AgentState)
    (hpos : 0 < limit) (hcount : limit ≤ state.messages.length) :
    (decide_next_step limit state).map Decision.route = some Route.END := by
  have hne : state.messages ≠ [] := by
    intro h
    rw [h] at hcount
    simp at hcount
    omega
  cases hgl : state.messages.getLast? with
  | none => exact absurd (List.getLast?_eq_none_iff.mp hgl) hne
  | some last =>
    unfold decide_next_step
    rw [hgl]
    simp only [Option.map_some']
    have hob : 20 * state.messages.length ≥ 19 * limit := by omega
    rw [if_pos hob, if_pos (by omega)]

/-- Claim C2, witness: a fifty-message state of sentinel-free reasoning
messages is routed to `END` at the default limit of 50. -/
theorem c2_witness :
    (decide_next_step 50 c2WitnessState).map Decision.route = some Route.END :=
  c2_recursion_limit 50 c2WitnessState (by decide) (by decide)

/- ### Claim C3 -/

theorem removeSentinelAux_congr : ∀ (f g : Nat) (s : List Char),
    s.length ≤ f → s.length ≤ g → removeSentinelAux f s = removeSentinelAux g s := by
  intro f
  induction f with
  | zero =>
    intro g s hf _
    have hs : s = [] := List.length_eq_zero.mp (Nat.le_zero.mp hf)
    subst hs
    cases g <;> rfl
  | succ f ih =>
    intro g s hf hg
    cases s with
    | nil => cases g <;> rfl
    | cons c rest =>
      cases g with
      | zero => simp at hg
      | succ g =>
        have h13 : sentinelChars.length = 13 := by decide
        simp only [List.length_cons] at hf hg
        simp only [removeSentinelAux]
        by_cases hp : sentinelChars.isPrefixOf (c :: rest) = true
        · rw [if_pos hp, if_pos hp]
          apply ih
          · simp only [List.length_drop, List.length_cons]
            omega
          · simp only [List.length_drop, List.length_cons]
            omega
        · rw [if_neg hp, if_neg hp]
          exact congrArg (c :: ·) (ih g rest (by omega) (by omega))

theorem drop_length_append (p t : List Char) : (p ++ t).drop p.length = t := by
  induction p with
  | nil => rfl
  | cons a as ih => simp [ih]

theorem removeSentinel_append_sentinel (body : List Char) :
    removeSentinel (sentinelChars ++ body) = removeSentinel body := by
  unfold removeSentinel
  have hlen : (sentinelChars ++ body).length = 13 + body.length := by
    simp [sentinelChars]
    omega
  rw [hlen]
  have hcons : sentinelChars ++ body = 'F' :: (("inal Answer:").toList ++ body) := rfl
  rw [hcons]
  rw [show 13 + body.length = (12 + body.length) + 1 from by omega]
  simp only [removeSentinelAux]
  rw [if_pos (show sentinelChars.isPrefixOf ('F' :: (("inal Answer:").toList ++ body)) = true by
    rw [← hcons]; exact isPrefixOf_append_self _ _)]
  rw [show ('F' :: (("inal Answer:").toList ++ body)).drop sentinelChars.length = body by
    rw [← hcons]; exact drop_length_append sentinelChars body]
  exact removeSentinelAux_congr _ _ _ (by omega) (Nat.le_refl _)

/-- Claim C3, counterexample: for the body `" x "` the final message
`"Final Answer: x "` is extracted to `"x"`, not to the body itself — the
extraction also strips surrounding whitespace (`.strip()` at src/main.py
line 759), so it is not the body with only the prefix removed. -/
theorem c3_counterexample :
    extractFinal (sentinelChars ++ (" x ").toList) ≠ (" x ").toList := by decide

/-- Claim C3, amended: for every document body, extracting the final
message `"Final Answer:" ++ body` yields the body with every occurrence of
the sentinel removed (Python `str.replace` replaces all occurrences, not
just the prefix) and with leading and trailing whitespace stripped; it is
exactly the body only when the body has no further sentinel occurrence and
no surrounding whitespace. -/
theorem c3_extraction (body : List Char) :
    extractFinal (sentinelChars ++ body) = pyStrip (removeSentinel body) := by
  unfold extractFinal
  rw [if_pos (isPrefixOf_append_self sentinelChars body)]
  rw [removeSentinel_append_sentinel]

/- ### Claim C4 -/

/-- Claim C4: in every state with empty `error_log` whose latest message
contains the sentinel phrase `"Final Answer"`, `decide_next_step` returns
`END` (src/main.py lines 394-401; the check is case-insensitive, so it
fires on the exact-case sentinel). -/
theorem c4_sentinel_completion (limit : Nat) (state : AgentState) (last : Message)
    (hlast : state.messages.getLast? = some last)
    (herr : state.error_log = [])
    (hfa : containsSub ("Final Answer").toList last.content = true) :
    (decide_next_step limit state).map Decision.route = some Route.END := by
  by_cases hlim : state.messages.length < limit
  · rw [decide_next_step_below_limit limit state last hlast hlim]
    have hlow : containsSub ("final answer").toList (lowerChars last.content) = true := by
      have h1 := containsSub_map_of_containsSub pyLower hfa
      have h2 : (("Final Answer").toList).map pyLower = ("final answer").toList := by decide
      rw [h2] at h1
      exact h1
    have hne : last.content ≠ [] := ne_nil_of_containsSub (by decide) hfa
    simp only [Option.map_some', Option.some.injEq]
    unfold routeRules
    rw [if_neg (by simp [herr]), if_pos hne, if_pos hlow]
  · unfold decide_next_step
    rw [hlast]
    simp only [Option.map_some']
    rw [if_pos (by omega), if_pos (by omega)]

/-- Claim C4, witness: an error-free one-message state whose message is
`"Final Answer: # README\nDone."` is routed to `END`. -/
theorem c4_witness :
    (decide_next_step 50 c4WitnessState).map Decision.route = some Route.END :=
  c4_sentinel_completion 50 c4WitnessState c4WitnessMsg rfl (by decide) (by decide)

/- ### Claim C5 -/

/-- Claim C5, counterexample: the 12-character message `"# T\n## Setup"`
(no sentinel, no error) is routed to `END` through the heuristic path even
though it does not meet the 200-character minimum length — the source
condition is `header and (setup-section or length > 200)`, so the minimum
length is not required when a setup heading is present. -/
theorem c5_counterexample :
    decide_next_step 50 c5State = some ⟨Route.END, true⟩ ∧
      ¬(200 < c5Msg.content.length) := by
  exact ⟨by decide, by decide⟩

/-- Claim C5, amended: in an error-free state below the recursion limit
whose latest text lacks the sentinel, `decide_next_step` takes the
warning-emitting heuristic completion to `END` exactly when the text is
non-empty, has a markdown header (starts with `#` or contains `"\n#"`) and
either contains a `"## setup"`/`"## installation"` heading
(case-insensitive) or exceeds 200 characters. -/
theorem c5_heuristic_iff (limit : Nat) (state : AgentState) (last : Message)
    (hlast : state.messages.getLast? = some last)
    (hcount : state.messages.length < limit)
    (herr : state.error_log = [])
    (hnofa : containsSub ("final answer").toList (lowerChars last.content) = false) :
    decide_next_step limit state = some ⟨Route.END, true⟩ ↔
      (last.content ≠ [] ∧ heuristicDone last.content = true) := by
  rw [decide_next_step_below_limit limit state last hlast hcount]
  unfold routeRules
  rw [if_neg (by simp [herr])]
  by_cases hc : last.content ≠ []
  · rw [if_pos hc, if_neg (by simp only [hnofa]; decide)]
    by_cases hh : heuristicDone last.content = true
    · rw [if_pos hh]
      simp [hc, hh]
    · rw [if_neg hh]
      constructor
      · intro habs
        rcases ht : last.tool_calls with _ | ⟨a, l⟩ <;>
          simp [toolOrContinue, ht] at habs
      · intro h
        exact absurd h.2 hh
  · rw [if_neg hc]
    constructor
    · intro habs
      rcases ht : last.tool_calls with _ | ⟨a, l⟩ <;>
        simp [toolOrContinue, ht] at habs
    · intro h
      exact absurd h.1 hc

/-- Claim C5, witness: the message `"# Proj\n## Installation\nRun pip."`
(non-empty, markdown header, installation heading, no sentinel, no error)
is routed to `END` with the heuristic warning. -/
theorem c5_witness :
    decide_next_step 50 c5WitnessState = some ⟨Route.END, true⟩ :=
  (c5_heuristic_iff 50 c5WitnessState c5WitnessMsg rfl (by decide) (by decide)
    (by decide)).mpr (by decide)

/- ### Claim C6 -/

/-- Claim C6, counterexample: an error-free fifty-message state whose
latest message carries a tool call and triggers no completion check is
routed to `END` by the recursion-limit cutoff, not to `"call_tool"`, so the
claim as stated fails at the limit. -/
theorem c6_counterexample :
    c6LastMsg.tool_calls ≠ [] ∧ c6State.error_log = [] ∧
      c6State.messages.getLast? = some c6LastMsg ∧
      (decide_next_step 50 c6State).map Decision.route ≠ some Route.call_tool := by
  exact ⟨by decide, by decide, by decide, by decide⟩

/-- Claim C6, amended: in an error-free state below the recursion limit
whose latest message triggers neither completion check, `decide_next_step`
returns `"call_tool"` precisely when the message carries at least one tool
call, and `"run_model"` otherwise. -/
theorem c6_tool_routing (limit : Nat) (state : AgentState) (last : Message)
    (hlast : state.messages.getLast? = some last)
    (hcount : state.messages.length < limit)
    (herr : state.error_log = [])
    (hnofa : containsSub ("final answer").toList (lowerChars last.content) = false)
    (hnoheur : heuristicDone last.content = false) :
    (decide_next_step limit state).map Decision.route =
      some (if last.tool_calls.isEmpty then Route.run_model else Route.call_tool) := by
  rw [decide_next_step_below_limit limit state last hlast hcount]
  have htool : (toolOrContinue last).route =
      if last.tool_calls.isEmpty then Route.run_model else Route.call_tool := by
    rcases ht : last.tool_calls with _ | ⟨a, l⟩ <;> simp [toolOrContinue, ht]
  unfold routeRules
  rw [if_neg (by simp [herr])]
  by_cases hc : last.content ≠ []
  · rw [if_pos hc, if_neg (by simp only [hnofa]; decide), if_neg (by simp only [hnoheur]; decide)]
    simp only [Option.map_some']
    rw [htool]
  · rw [if_neg hc]
    simp only [Option.map_some']
    rw [htool]

/-- Claim C6, witness: an error-free one-message state whose message is
plain reasoning text with one tool call is routed to `"call_tool"`. -/
theorem c6_witness :
    (decide_next_step 50 c6WitnessState).map Decision.route =
      some (if c6WitnessMsg.tool_calls.isEmpty then Route.run_model else Route.call_tool) :=
  c6_tool_routing 50 c6WitnessState c6WitnessMsg rfl (by decide) (by decide)
    (by decide) (by decide)

/- ### Claim C8 -/

set_option maxRecDepth 100000 in
/-- Claim C8, counterexample: a 1000-character file is returned complete
and verbatim with no truncation notice — `read_file` (src/tools.py lines
434-475) has no length bound and never appends a notice, so the bounded-
length part of the claim is false. -/
theorem c8_counterexample :
    read_file c8Fs (("big.py").toList) = List.replicate 1000 'a' ∧
      containsSub (("truncat").toList) (read_file c8Fs (("big.py").toList)) = false := by
  exact ⟨by decide, by decide⟩

/-- Claim C8, amended: for every file path, `read_file` returns the file's
complete text unbounded (there is no truncation logic), or an error string
for a missing path, a directory path, or a read failure; it never raises. -/
theorem c8_read_file (fs : FileSystem) (file_path : List Char) :
    (fs file_path = FsEntry.absent → read_file fs file_path = fileNotFoundMsg file_path) ∧
    (fs file_path = FsEntry.directory → read_file fs file_path = isDirectoryMsg file_path) ∧
    (∀ content, fs file_path = FsEntry.file content → read_file fs file_path = content) ∧
    (∀ err, fs file_path = FsEntry.unreadable err → read_file fs file_path = readFailMsg err) := by
  refine ⟨?_, ?_, ?_, ?_⟩
  · intro h
    unfold read_file
    rw [h]
  · intro h
    unfold read_file
    rw [h]
  · intro content h
    unfold read_file
    rw [h]
  · intro err h
    unfold read_file
    rw [h]

/-- Claim C8, witness: on the single-file filesystem, reading a missing
path yields the not-found error string via the theorem's first branch. -/
theorem c8_witness :
    read_file c8Fs (("missing.py").toList) = fileNotFoundMsg (("missing.py").toList) :=
  (c8_read_file c8Fs (("missing.py").toList)).1 (by decide)

/- ### Claim C7 -/

/-- Claim C7 (Tool Executor modelled from the spec, see `execute`): tool
failure never escapes the executor — it is a total function producing one
observation per request in order; an unknown tool name yields the
structured unknown-tool error string, a raised exception yields the
failure error text, a per-tool-timeout expiry yields the timeout error
text, and a successful invocation yields its result. -/
theorem observeOutcome_correlation (id : List Char) (o : ToolOutcome) :
    (observeOutcome id o).correlation_id = id := by
  cases o <;> rfl

theorem answerRequest_none (registry : ToolRegistry) (req : ToolRequest)
    (hl : registry.lookup req.name = none) :
    answerRequest registry req = ⟨req.id, unknownToolMsg req.name⟩ := by
  unfold answerRequest
  rw [hl]

theorem answerRequest_some (registry : ToolRegistry) (req : ToolRequest)
    (f : List ((List Char) × (List Char)) → ToolOutcome)
    (hl : registry.lookup req.name = some f) :
    answerRequest registry req = observeOutcome req.id (f req.args) := by
  unfold answerRequest
  rw [hl]

theorem c7_executor (registry : ToolRegistry) (requests : List ToolRequest) (i : Nat)
    (h : i < requests.length) (h2 : i < (execute registry requests).length) :
    (execute registry requests).length = requests.length ∧
    ((execute registry requests).get ⟨i, h2⟩).correlation_id = (requests.get ⟨i, h⟩).id ∧
    (registry.lookup (requests.get ⟨i, h⟩).name = none →
      ((execute registry requests).get ⟨i, h2⟩).result =
        unknownToolMsg (requests.get ⟨i, h⟩).name) ∧
    (∀ f e, registry.lookup (requests.get ⟨i, h⟩).name = some f →
      f (requests.get ⟨i, h⟩).args = ToolOutcome.raised e →
      ((execute registry requests).get ⟨i, h2⟩).result = toolFailureMsg e) ∧
    (∀ f, registry.lookup (requests.get ⟨i, h⟩).name = some f →
      f (requests.get ⟨i, h⟩).args = ToolOutcome.timedOut →
      ((execute registry requests).get ⟨i, h2⟩).result = toolTimeoutMsg) ∧
    (∀ f s, registry.lookup (requests.get ⟨i, h⟩).name = some f →
      f (requests.get ⟨i, h⟩).args = ToolOutcome.ok s →
      ((execute registry requests).get ⟨i, h2⟩).result = s) := by
  have hget : (execute registry requests).get ⟨i, h2⟩ =
      answerRequest registry (requests.get ⟨i, h⟩) := by
    unfold execute
    simp [List.get_eq_getElem, List.getElem_map]
  refine ⟨by simp [execute], ?_, ?_, ?_, ?_, ?_⟩
  · rw [hget]
    cases hl : List.lookup (requests.get ⟨i, h⟩).name registry with
    | none => rw [answerRequest_none registry _ hl]
    | some f =>
      rw [answerRequest_some registry _ f hl]
      exact observeOutcome_correlation _ _
  · intro hl
    rw [hget, answerRequest_none registry _ hl]
  · intro f e hl ho
    rw [hget, answerRequest_some registry _ f hl, ho]
    rfl
  · intro f hl ho
    rw [hget, answerRequest_some registry _ f hl, ho]
    rfl
  · intro f s hl ho
    rw [hget, answerRequest_some registry _ f hl, ho]
    rfl

/-- Claim C7, witness: executing a batch of one raising tool call and one
unknown tool name yields, at index 1, the unknown-tool error observation. -/
theorem c7_witness :
    ((execute c7Registry c7Requests).get ⟨1, by decide⟩).result =
      unknownToolMsg (("does_not_exist").toList) :=
  (c7_executor c7Registry c7Requests 1 (by decide) (by decide)).2.2.1 rfl

/- ### Claim C9 -/

theorem stmtsSize_append (a b : List PyStmt) :
    stmtsSize (a ++ b) = stmtsSize a + stmtsSize b := by
  induction a with
  | nil => simp [stmtsSize]
  | cons x xs ih =>
    simp [stmtsSize, ih]
    omega

theorem stmtsSize_childrenOf_lt (t : PyStmt) : stmtsSize (childrenOf t) < stmtSize t := by
  cases t <;> simp [stmtSize, childrenOf, stmtsSize]

theorem walkBFS_cons (n : PyStmt) (rest : List PyStmt) :
    walkBFS (n :: rest) = n :: walkBFS (rest ++ childrenOf n) := by
  rw [walkBFS]

theorem mem_walkBFS_aux : ∀ (m : Nat) (q : List PyStmt), stmtsSize q ≤ m →
    ∀ s ∈ q, s ∈ walkBFS q := by
  intro m
  induction m with
  | zero =>
    intro q hq s hs
    cases q with
    | nil => cases hs
    | cons n rest =>
      exfalso
      have := stmtsSize_childrenOf_lt n
      simp [stmtsSize] at hq
      omega
  | succ m ih =>
    intro q hq s hs
    cases q with
    | nil => cases hs
    | cons n rest =>
      rw [walkBFS_cons]
      rcases List.mem_cons.mp hs with rfl | hmem
      · exact List.mem_cons_self _ _
      · refine List.mem_cons_of_mem _
          (ih (rest ++ childrenOf n) ?_ s (List.mem_append_left _ hmem))
        have := stmtsSize_childrenOf_lt n
        rw [stmtsSize_append]
        simp [stmtsSize] at hq
        omega

theorem mem_walkBFS (q : List PyStmt) (s : PyStmt) (h : s ∈ q) : s ∈ walkBFS q :=
  mem_walkBFS_aux (stmtsSize q) q (Nat.le_refl _) s h

theorem mem_walkBFS_child_aux : ∀ (m : Nat) (q : List PyStmt), stmtsSize q ≤ m →
    ∀ s ∈ q, ∀ c ∈ childrenOf s, c ∈ walkBFS q := by
  intro m
  induction m with
  | zero =>
    intro q hq s hs
    cases q with
    | nil => cases hs
    | cons n rest =>
      exfalso
      have := stmtsSize_childrenOf_lt n
      simp [stmtsSize] at hq
      omega
  | succ m ih =>
    intro q hq s hs c hc
    cases q with
    | nil => cases hs
    | cons n rest =>
      rw [walkBFS_cons]
      have hsz : stmtsSize (rest ++ childrenOf n) ≤ m := by
        have := stmtsSize_childrenOf_lt n
        rw [stmtsSize_append]
        simp [stmtsSize] at hq
        omega
      rcases List.mem_cons.mp hs with rfl | hmem
      · exact List.mem_cons_of_mem _ (mem_walkBFS _ _ (List.mem_append_right _ hc))
      · exact List.mem_cons_of_mem _
          (ih (rest ++ childrenOf n) hsz s (List.mem_append_left _ hmem) c hc)

theorem mem_walkBFS_child (q : List PyStmt) (s : PyStmt) (hs : s ∈ q)
    (c : PyStmt) (hc : c ∈ childrenOf s) : c ∈ walkBFS q :=
  mem_walkBFS_child_aux (stmtsSize q) q (Nat.le_refl _) s hs c hc

theorem filter_filterMap_toComponent (l : List PyStmt) :
    ((l.filterMap toComponent).filter isFuncComponent).length =
      (l.filter isFuncStmt).length := by
  induction l with
  | nil => rfl
  | cons s rest ih =>
    cases s <;>
      simp [toComponent, isFuncStmt, isFuncComponent, List.filterMap_cons, List.filter_cons, ih]

theorem funcDefCount_children (t : PyStmt) :
    funcDefCount t = (if isFuncStmt t then 1 else 0) + funcDefCountList (childrenOf t) := by
  cases t <;> simp [funcDefCount, funcDefCountList, isFuncStmt, childrenOf]

theorem funcDefCountList_append (a b : List PyStmt) :
    funcDefCountList (a ++ b) = funcDefCountList a + funcDefCountList b := by
  induction a with
  | nil => simp [funcDefCountList]
  | cons x xs ih =>
    simp [funcDefCountList, ih]
    omega

theorem walk_funcCount_aux : ∀ (m : Nat) (q : List PyStmt), stmtsSize q ≤ m →
    ((walkBFS q).filter isFuncStmt).length = funcDefCountList q := by
  intro m
  induction m with
  | zero =>
    intro q hq
    cases q with
    | nil => simp [walkBFS, funcDefCountList]
    | cons n rest =>
      exfalso
      have := stmtsSize_childrenOf_lt n
      simp [stmtsSize] at hq
      omega
  | succ m ih =>
    intro q hq
    cases q with
    | nil => simp [walkBFS, funcDefCountList]
    | cons n rest =>
      rw [walkBFS_cons]
      have hsz : stmtsSize (rest ++ childrenOf n) ≤ m := by
        have := stmtsSize_childrenOf_lt n
        rw [stmtsSize_append]
        simp [stmtsSize] at hq
        omega
      have hrec := ih (rest ++ childrenOf n) hsz
      have hn := funcDefCount_children n
      simp only [List.filter_cons]
      by_cases hf : isFuncStmt n = true
      · rw [if_pos hf]
        rw [if_pos hf] at hn
        simp only [List.length_cons]
        rw [hrec, funcDefCountList_append]
        simp [funcDefCountList]
        omega
      · rw [if_neg hf]
        rw [if_neg hf] at hn
        rw [hrec, funcDefCountList_append]
        simp [funcDefCountList]
        omega

/-- Claim C9: in every parsed module, a method defined inside a class body
is reported twice by `analyze_code` — once in the class component's
`methods` list and once as a separate top-level `"function"` component,
because `ast.walk` also visits the nested function definition — and the
function count of the `analysis_summary` equals the number of all function
definitions in the tree, class methods included. -/
theorem c9_method_double_report (tree : List PyStmt) (cname : List Char) (cln : Nat)
    (cbody : List PyStmt) (mA : Bool) (mname : List Char) (mps : List (List Char))
    (mret : Option (List Char)) (mln : Nat) (mbody : List PyStmt)
    (hcls : PyStmt.classDef cname cln cbody ∈ tree)
    (hm : PyStmt.funcDef mA mname mps mret mln mbody ∈ cbody) :
    (Component.cls cname (renderDoc (extractDocstring cbody)) (cbody.filterMap methodOf) cln
        ∈ analyze_code tree) ∧
    ((⟨mname, mps, renderReturns mret, renderDoc (extractDocstring mbody)⟩ : MethodInfo)
        ∈ cbody.filterMap methodOf) ∧
    (Component.func mname mps (renderReturns mret) (renderDoc (extractDocstring mbody)) mln
        ∈ analyze_code tree) ∧
    functionCount (analyze_code tree) = funcDefCountList tree := by
  refine ⟨?_, ?_, ?_, ?_⟩
  · unfold analyze_code
    exact List.mem_filterMap.mpr ⟨_, mem_walkBFS tree _ hcls, rfl⟩
  · exact List.mem_filterMap.mpr ⟨_, hm, rfl⟩
  · unfold analyze_code
    have hw : PyStmt.funcDef mA mname mps mret mln mbody ∈ walkBFS tree :=
      mem_walkBFS_child tree _ hcls _ (by simpa [childrenOf] using hm)
    exact List.mem_filterMap.mpr ⟨_, hw, rfl⟩
  · unfold analyze_code functionCount
    rw [filter_filterMap_toComponent (walkBFS tree)]
    exact walk_funcCount_aux (stmtsSize tree) tree (Nat.le_refl _)

/-- Claim C9, witness: in a module defining one class `Calculator` with
one method `add` and nothing else, the class component lists the method,
the method also appears as a `"function"` component, and the summary's
function count includes it. -/
theorem c9_witness :
    (Component.cls (("Calculator").toList) (renderDoc (extractDocstring c9ClassBody))
        (c9ClassBody.filterMap methodOf) 1 ∈ analyze_code c9Tree) ∧
    ((⟨("add").toList, [("self").toList, ("a").toList, ("b").toList],
        renderReturns (some ("int").toList),
        renderDoc (extractDocstring
          [PyStmt.exprStr ("Adds two numbers.").toList, PyStmt.simpleStmt])⟩ : MethodInfo)
        ∈ c9ClassBody.filterMap methodOf) ∧
    (Component.func (("add").toList) [("self").toList, ("a").toList, ("b").toList]
        (renderReturns (some ("int").toList))
        (renderDoc (extractDocstring
          [PyStmt.exprStr ("Adds two numbers.").toList, PyStmt.simpleStmt])) 3
        ∈ analyze_code c9Tree) ∧
    functionCount (analyze_code c9Tree) = funcDefCountList c9Tree :=
  c9_method_double_report c9Tree (("Calculator").toList) 1 c9ClassBody false
    (("add").toList) [("self").toList, ("a").toList, ("b").toList]
    (some ("int").toList) 3
    [PyStmt.exprStr ("Adds two numbers.").toList, PyStmt.simpleStmt]
    (by simp [c9Tree]) (by simp [c9ClassBody, c9Method])

/- ### Claim C10 -/

/-- Claim C10: knowledge-base initialization is atomic in the retriever —
either the pipeline fails (or the input is empty) and the status string is
the warning or an error string while the global retriever is returned
unchanged, or every step succeeded and the retriever is reassigned to the
new handle with the success message; and an unset retriever makes
`retrieve_knowledge` report not-initialized. -/
theorem initFromRetriever_spec (retriever : Option Nat) (nTexts : Nat)
    (r : Except (List Char) Nat) :
    ((initFromRetriever retriever nTexts r).2 = retriever ∧
      ∃ e, (initFromRetriever retriever nTexts r).1 = kbErrorMsg e) ∨
    (∃ rr, r = Except.ok rr ∧
      initFromRetriever retriever nTexts r = (kbSuccessMsg nTexts, some rr)) := by
  cases r with
  | error e => exact Or.inl ⟨rfl, e, rfl⟩
  | ok rr => exact Or.inr ⟨rr, rfl, rfl⟩

theorem initFromStore_spec (ops : KBOps) (retriever : Option Nat) (texts : List Doc)
    (st : Except (List Char) Nat) :
    ((initFromStore ops retriever texts st).2 = retriever ∧
      ∃ e, (initFromStore ops retriever texts st).1 = kbErrorMsg e) ∨
    (∃ store r, st = Except.ok store ∧ ops.asRetriever store = Except.ok r ∧
      initFromStore ops retriever texts st = (kbSuccessMsg texts.length, some r)) := by
  cases st with
  | error e => exact Or.inl ⟨rfl, e, rfl⟩
  | ok store =>
    rcases initFromRetriever_spec retriever texts.length (ops.asRetriever store) with
      ⟨ha, e, hb⟩ | ⟨rr, hok, heq⟩
    · exact Or.inl ⟨ha, e, hb⟩
    · exact Or.inr ⟨store, rr, rfl, hok, heq⟩

theorem initFromEmbeddings_spec (ops : KBOps) (retriever : Option Nat) (texts : List Doc)
    (em : Except (List Char) Unit) :
    ((initFromEmbeddings ops retriever texts em).2 = retriever ∧
      ∃ e, (initFromEmbeddings ops retriever texts em).1 = kbErrorMsg e) ∨
    (∃ store r, em = Except.ok () ∧ ops.chromaFromDocuments texts = Except.ok store ∧
      ops.asRetriever store = Except.ok r ∧
      initFromEmbeddings ops retriever texts em = (kbSuccessMsg texts.length, some r)) := by
  cases em with
  | error e => exact Or.inl ⟨rfl, e, rfl⟩
  | ok u =>
    cases u
    rcases initFromStore_spec ops retriever texts (ops.chromaFromDocuments texts) with
      ⟨ha, e, hb⟩ | ⟨store, rr, hok, hret, heq⟩
    · exact Or.inl ⟨ha, e, hb⟩
    · exact Or.inr ⟨store, rr, rfl, hok, hret, heq⟩

/-- Claim C10: knowledge-base initialization is atomic in the retriever —
either the pipeline fails (or the input is empty) and the status string is
the warning or an error string while the global retriever is returned
unchanged, or every step succeeded and the retriever is reassigned to the
new handle with the success message; and an unset retriever makes
`retrieve_knowledge` report not-initialized. -/
theorem c10_init_atomic (ops : KBOps) (retriever : Option Nat) (documents : List Doc) :
    (((init_knowledge_base ops retriever documents).2 = retriever ∧
        ((init_knowledge_base ops retriever documents).1 = kbWarningMsg ∨
         ∃ e, (init_knowledge_base ops retriever documents).1 = kbErrorMsg e)) ∨
      (∃ texts store r,
        ops.splitDocuments documents = Except.ok texts ∧
        ops.createEmbeddings = Except.ok () ∧
        ops.chromaFromDocuments texts = Except.ok store ∧
        ops.asRetriever store = Except.ok r ∧
        init_knowledge_base ops retriever documents = (kbSuccessMsg texts.length, some r))) ∧
    (∀ (invoke : Nat → List Char → Except (List Char) (List Doc)) (query : List Char),
      retrieve_knowledge none invoke query = kbNotInitMsg) := by
  constructor
  · unfold init_knowledge_base
    by_cases hd : documents.isEmpty
    · rw [if_pos hd]
      exact Or.inl ⟨rfl, Or.inl rfl⟩
    · rw [if_neg hd]
      cases h1 : ops.splitDocuments documents with
      | error e => exact Or.inl ⟨by rfl, Or.inr ⟨e, by rfl⟩⟩
      | ok texts =>
        rcases initFromEmbeddings_spec ops retriever texts ops.createEmbeddings with
          ⟨ha, e, hb⟩ | ⟨store, r, hem, h3, h4, heq⟩
        · exact Or.inl ⟨ha, Or.inr ⟨e, hb⟩⟩
        · exact Or.inr ⟨texts, store, r, by rfl, hem, h3, h4, heq⟩
  · intro invoke query
    rfl

end Klaro
